import Mathlib

/-
  Verification development for the motion-api-bot command core
  (src/bot/api.py): the Api class, its command handlers, its error
  classification callback and the handler registration performed by
  __create_api_commands.

  Embedding conventions:
  * Side effects are recorded as an explicit trace of Effect values
    (logger.info calls, print calls, HTTP GETs issued by requests.get,
    and bot.send_message calls that completed).
  * The external world (the backend HTTP server reached through
    requests.get, and the Telegram transport reached through
    bot.send_message) is a World record of oracles; a GET or a send may
    fail with a Python exception value, modelled by PyError.
  * A handler that lets an exception propagate returns it in the
    raised field of its HandlerResult; raised = none means the handler
    ran to completion.
  * The Python isinstance checks against the telegram.error hierarchy are
    modelled by Boolean class predicates on PyError, one per class,
    reflecting the library hierarchy (TimedOut is a subclass of
    NetworkError; all telegram errors are TelegramError instances;
    requests exceptions are not).
-/

namespace MotionBot

/-- Bot configuration: the three keys of the settings record read by
src/bot/api.py (settings["token"], settings["server_address"],
settings["version"]). -/
structure Settings where
  token : String
  server_address : String
  version : String
deriving DecidableEq

/-- An HTTP response as produced by requests.get: status code, the raw
body bytes (response.content) and the library-decoded body text
(response.text). api.py only ever reads the content field. -/
structure Response where
  status_code : Nat
  content : List Nat
  text : String
deriving DecidableEq

/-- The value handed to bot.send_message as its text argument: either the
raw bytes of a backend response (response.content) or a Python str. -/
inductive Payload where
  | bytes (b : List Nat)
  | str (s : String)
deriving DecidableEq

/-- Python exception values relevant to api.py: one constructor per leaf
position of the telegram.error hierarchy as discriminated by
__error_callback, plus requestsError for exceptions that are not
TelegramError instances (for example requests.exceptions.ConnectionError
raised by a failing backend GET). -/
inductive PyError where
  | unauthorized
  | badRequest
  | timedOut
  | networkError
  | chatMigrated (new_chat_id : Int)
  | telegramError
  | requestsError (msg : String)
deriving DecidableEq

/-- isinstance(e, telegram.error.Unauthorized). -/
def isUnauthorized : PyError → Bool
  | .unauthorized => true
  | _ => false

/-- isinstance(e, telegram.error.BadRequest). -/
def isBadRequest : PyError → Bool
  | .badRequest => true
  | _ => false

/-- isinstance(e, telegram.error.TimedOut). -/
def isTimedOut : PyError → Bool
  | .timedOut => true
  | _ => false

/-- isinstance(e, telegram.error.NetworkError): TimedOut is a subclass of
NetworkError in the telegram.error hierarchy. -/
def isNetworkError : PyError → Bool
  | .timedOut => true
  | .networkError => true
  | _ => false

/-- isinstance(e, telegram.error.ChatMigrated). -/
def isChatMigrated : PyError → Bool
  | .chatMigrated _ => true
  | _ => false

/-- isinstance(e, telegram.error.TelegramError): every telegram.error
class is a TelegramError subclass; requests exceptions are not. -/
def isTelegramError : PyError → Bool
  | .requestsError _ => false
  | _ => true

/-- One recorded side effect of running api.py code. -/
inductive Effect where
  | logInfo (msg : String)
  | printLine (msg : String)
  | httpGet (url : String)
  | sendMessage (chat_id : Int) (text : Payload)
deriving DecidableEq

/-- The external world: the backend HTTP server behind requests.get and
the Telegram transport behind bot.send_message. http url is the outcome
of a GET to url; send chat payload is none when the message was delivered
and some e when bot.send_message raised e. -/
structure World where
  http : String → Except PyError Response
  send : Int → Payload → Option PyError

/-- update.message: the part of an inbound Telegram update that the
handlers read (only message.chat_id is ever accessed). -/
structure Message where
  chat_id : Int
deriving DecidableEq

/-- An inbound Telegram update as passed to a handler. -/
structure Update where
  message : Message
deriving DecidableEq

/-- The Api object state visible to the handlers: the settings record
stored by __init__. No handler writes any field. -/
structure Api where
  settings : Settings
deriving DecidableEq

/-- Outcome of one handler invocation: the trace of effects it performed
and the exception it let propagate, if any (none = ran to completion). -/
structure HandlerResult where
  trace : List Effect
  raised : Option PyError
deriving DecidableEq

/-- get_request_to_server of api.py: build the address
http://{server_address}/v1/{cmd} and perform requests.get(address).
Returns the GET effect issued together with the outcome. -/
def Api.get_request_to_server (a : Api) (w : World) (cmd : String) :
    List Effect × Except PyError Response :=
  let address := "http://" ++ a.settings.server_address ++ "/v1/" ++ cmd
  ([Effect.httpGet address], w.http address)

/-- The help handler of api.py: log receipt, GET /v1/help, send the raw
response.content to the originating chat. An exception from the GET or
from send_message propagates; no field of the Api object is written. -/
def Api.help (a : Api) (w : World) (u : Update) : HandlerResult × Api :=
  let gr := a.get_request_to_server w "help"
  let t := Effect.logInfo "Received help command" :: gr.1
  match gr.2 with
  | .error e => (⟨t, some e⟩, a)
  | .ok response =>
    match w.send u.message.chat_id (Payload.bytes response.content) with
    | some e => (⟨t, some e⟩, a)
    | none =>
      (⟨t ++ [Effect.sendMessage u.message.chat_id (Payload.bytes response.content)], none⟩, a)

/-- The start handler of api.py: identical protocol to help, command
string "start". -/
def Api.start (a : Api) (w : World) (u : Update) : HandlerResult × Api :=
  let gr := a.get_request_to_server w "start"
  let t := Effect.logInfo "Received start command" :: gr.1
  match gr.2 with
  | .error e => (⟨t, some e⟩, a)
  | .ok response =>
    match w.send u.message.chat_id (Payload.bytes response.content) with
    | some e => (⟨t, some e⟩, a)
    | none =>
      (⟨t ++ [Effect.sendMessage u.message.chat_id (Payload.bytes response.content)], none⟩, a)

/-- The stop handler of api.py: identical protocol to help, command
string "stop". -/
def Api.stop (a : Api) (w : World) (u : Update) : HandlerResult × Api :=
  let gr := a.get_request_to_server w "stop"
  let t := Effect.logInfo "Received stop command" :: gr.1
  match gr.2 with
  | .error e => (⟨t, some e⟩, a)
  | .ok response =>
    match w.send u.message.chat_id (Payload.bytes response.content) with
    | some e => (⟨t, some e⟩, a)
    | none =>
      (⟨t ++ [Effect.sendMessage u.message.chat_id (Payload.bytes response.content)], none⟩, a)

/-- The info handler of api.py: identical protocol to help, command
string "info". -/
def Api.info (a : Api) (w : World) (u : Update) : HandlerResult × Api :=
  let gr := a.get_request_to_server w "info"
  let t := Effect.logInfo "Received info command" :: gr.1
  match gr.2 with
  | .error e => (⟨t, some e⟩, a)
  | .ok response =>
    match w.send u.message.chat_id (Payload.bytes response.content) with
    | some e => (⟨t, some e⟩, a)
    | none =>
      (⟨t ++ [Effect.sendMessage u.message.chat_id (Payload.bytes response.content)], none⟩, a)

/-- The version handler of api.py: log receipt and send
settings["version"] to the originating chat; no backend GET. -/
def Api.version (a : Api) (w : World) (u : Update) : HandlerResult × Api :=
  let t := [Effect.logInfo "Received version command"]
  match w.send u.message.chat_id (Payload.str a.settings.version) with
  | some e => (⟨t, some e⟩, a)
  | none =>
    (⟨t ++ [Effect.sendMessage u.message.chat_id (Payload.str a.settings.version)], none⟩, a)

/-- The test handler of api.py: identical protocol to help, command
string "test". -/
def Api.test (a : Api) (w : World) (u : Update) : HandlerResult × Api :=
  let gr := a.get_request_to_server w "test"
  let t := Effect.logInfo "Received test command" :: gr.1
  match gr.2 with
  | .error e => (⟨t, some e⟩, a)
  | .ok response =>
    match w.send u.message.chat_id (Payload.bytes response.content) with
    | some e => (⟨t, some e⟩, a)
    | none =>
      (⟨t ++ [Effect.sendMessage u.message.chat_id (Payload.bytes response.content)], none⟩, a)

/-- The unknown handler of api.py: log receipt and send the fixed string
"Sorry, unknown command" to the originating chat; no backend GET. -/
def Api.unknown (a : Api) (w : World) (u : Update) : HandlerResult × Api :=
  let t := [Effect.logInfo "Received unknown command"]
  match w.send u.message.chat_id (Payload.str "Sorry, unknown command") with
  | some e => (⟨t, some e⟩, a)
  | none =>
    (⟨t ++ [Effect.sendMessage u.message.chat_id (Payload.str "Sorry, unknown command")], none⟩, a)

/-- error_callback of api.py (the method named with two leading
underscores): re-raise the error and discriminate it through the chain of
except clauses in source order (Unauthorized, BadRequest, TimedOut,
NetworkError, ChatMigrated, TelegramError). A matching clause logs one
line and swallows the error; when no clause matches, the re-raised error
escapes the callback, returned as some e with nothing logged. -/
def error_callback (e : PyError) : List Effect × Option PyError :=
  if isUnauthorized e then ([Effect.logInfo "Error Unauthorized found!"], none)
  else if isBadRequest e then ([Effect.logInfo "Error BadRequest found!"], none)
  else if isTimedOut e then ([Effect.logInfo "Error TimedOut found!"], none)
  else if isNetworkError e then ([Effect.logInfo "Error NetworkError found!"], none)
  else if isChatMigrated e then ([Effect.logInfo "Error ChatMigrated found!"], none)
  else if isTelegramError e then ([Effect.logInfo "Error TelegramError found!"], none)
  else ([], some e)

/-- The names of the bound methods of the Api class that handlers can
resolve to. -/
inductive HandlerName where
  | help
  | start
  | stop
  | info
  | version
  | test
  | unknown
deriving DecidableEq

/-- getattr(self, name) as used by __create_api_commands: resolve a
method of the Api class by its name (none models AttributeError). -/
def getattrApi (name : String) : Option HandlerName :=
  if name = "help" then some HandlerName.help
  else if name = "start" then some HandlerName.start
  else if name = "stop" then some HandlerName.stop
  else if name = "info" then some HandlerName.info
  else if name = "version" then some HandlerName.version
  else if name = "test" then some HandlerName.test
  else if name = "unknown" then some HandlerName.unknown
  else none

/-- The source-level name of each handler method. -/
def handlerNameStr : HandlerName → String
  | .help => "help"
  | .start => "start"
  | .stop => "stop"
  | .info => "info"
  | .version => "version"
  | .test => "test"
  | .unknown => "unknown"

/-- Invoke the handler method bound to a name, as the dispatcher does. -/
def runHandler : HandlerName → Api → World → Update → HandlerResult × Api
  | .help, a, w, u => a.help w u
  | .start, a, w, u => a.start w u
  | .stop, a, w, u => a.stop w u
  | .info, a, w, u => a.info w u
  | .version, a, w, u => a.version w u
  | .test, a, w, u => a.test w u
  | .unknown, a, w, u => a.unknown w u

/-- The api_commands array of the Api class. -/
def api_commands : List String :=
  ["help", "start", "stop", "info", "version", "test"]

/-- An inbound Telegram message as seen by the dispatcher: either a
command-shaped message carrying a command token, or a plain message with
no command entity. -/
inductive Inbound where
  | command (tok : String) (chat_id : Int)
  | plain (chat_id : Int)
deriving DecidableEq

/-- A listener registered on the dispatcher: CommandHandler(name, h)
matches exactly the command token name; the MessageHandler built with
Filters.command matches every command-shaped message. -/
inductive Listener where
  | cmdListener (name : String) (h : HandlerName)
  | commandFallback (h : HandlerName)
deriving DecidableEq

/-- check_update of a listener: does it match this inbound message? -/
def listenerMatches : Listener → Inbound → Bool
  | .cmdListener name _, .command tok _ => tok == name
  | .cmdListener _ _, .plain _ => false
  | .commandFallback _, .command _ _ => true
  | .commandFallback _, .plain _ => false

/-- The handler callback a listener routes to. -/
def listenerHandler : Listener → HandlerName
  | .cmdListener _ h => h
  | .commandFallback h => h

/-- The python-telegram-bot dispatcher on one handler group: the first
registered listener whose check passes handles the update; no listener
matching means the update is dropped with no handler run. -/
def dispatch (ls : List Listener) (ev : Inbound) : Option HandlerName :=
  (ls.find? fun l => listenerMatches l ev).map listenerHandler

/-- State built up by handler registration: the ordered handler list of
dispatcher group 0 and the registered error handlers. -/
structure DispatcherState where
  handlers : List Listener
  error_handlers : List String
deriving DecidableEq

/-- create_api_commands of api.py (the method named with two leading
underscores): for each name of api_commands, print a diagnostic line and
add CommandHandler(name, getattr(self, name)); then add the
MessageHandler(Filters.command, unknown) fallback; then register the
error callback. The none branch of the getattr lookup is unreachable for
api_commands (every listed name resolves, see the registration theorem). -/
def create_api_commands : List Effect × DispatcherState :=
  let step : List Effect × List Listener → String → List Effect × List Listener :=
    fun acc command =>
      match getattrApi command with
      | some h => (acc.1 ++ [Effect.printLine ("Creating command: " ++ command)],
                   acc.2 ++ [Listener.cmdListener command h])
      | none => (acc.1 ++ [Effect.printLine ("Creating command: " ++ command)], acc.2)
  let built := api_commands.foldl step ([], [])
  (built.1,
   { handlers := built.2 ++ [Listener.commandFallback HandlerName.unknown],
     error_handlers := ["__error_callback"] })

/-- The URLs of the HTTP GETs recorded in a trace, in order. -/
def getsOf (t : List Effect) : List String :=
  t.filterMap fun e =>
    match e with
    | .httpGet url => some url
    | _ => none

/-- The delivered replies recorded in a trace: destination chat and
payload, in order. -/
def sendsOf (t : List Effect) : List (Int × Payload) :=
  t.filterMap fun e =>
    match e with
    | .sendMessage c p => some (c, p)
    | _ => none

/-- Is this inbound message command-shaped (does Filters.command pass)? -/
def isCommandMsg : Inbound → Bool
  | .command _ _ => true
  | .plain _ => false

/-- Is this listener the Filters.command fallback? -/
def isFallback : Listener → Bool
  | .commandFallback _ => true
  | _ => false

/-- Concrete settings for witness evaluations, matching the scenario of
the specification (server_address localhost:8080, version 1.0). -/
def testSettings : Settings :=
  { token := "TOKEN", server_address := "localhost:8080", version := "1.0" }

/-- Concrete Api object for witness evaluations. -/
def testApi : Api := { settings := testSettings }

/-- Concrete backend response for witness evaluations: body "Hello!". -/
def testResponse : Response :=
  { status_code := 200, content := [72, 101, 108, 108, 111, 33], text := "Hello!" }

/-- Concrete world for witness evaluations: every GET answers
testResponse and every send is delivered. -/
def testWorld : World :=
  { http := fun _ => Except.ok testResponse, send := fun _ _ => none }

/-- Concrete inbound update for witness evaluations. -/
def testUpdate : Update := { message := { chat_id := 7 } }

/-- The handler body repeated verbatim by the five networked handlers
(help, start, stop, info, test) in api.py, abstracted over the logged
message and the command string; each of those five handlers equals this
body instantiated, definitionally. -/
def networkedBody (logmsg cmd : String) (a : Api) (w : World) (u : Update) :
    HandlerResult × Api :=
  let gr := a.get_request_to_server w cmd
  let t := Effect.logInfo logmsg :: gr.1
  match gr.2 with
  | .error e => (⟨t, some e⟩, a)
  | .ok response =>
    match w.send u.message.chat_id (Payload.bytes response.content) with
    | some e => (⟨t, some e⟩, a)
    | none =>
      (⟨t ++ [Effect.sendMessage u.message.chat_id (Payload.bytes response.content)], none⟩, a)

/-- The six CommandHandler listeners in the order __create_api_commands
builds them. -/
def commandListeners : List Listener :=
  [Listener.cmdListener "help" HandlerName.help,
   Listener.cmdListener "start" HandlerName.start,
   Listener.cmdListener "stop" HandlerName.stop,
   Listener.cmdListener "info" HandlerName.info,
   Listener.cmdListener "version" HandlerName.version,
   Listener.cmdListener "test" HandlerName.test]

/-- A reordering of the registered listeners with the Filters.command
fallback moved to the front, ahead of every CommandHandler. -/
def fallbackFirstOrder : List Listener :=
  Listener.commandFallback HandlerName.unknown :: commandListeners

lemma help_eq_body : Api.help = networkedBody "Received help command" "help" := rfl

lemma start_eq_body : Api.start = networkedBody "Received start command" "start" := rfl

lemma stop_eq_body : Api.stop = networkedBody "Received stop command" "stop" := rfl

lemma info_eq_body : Api.info = networkedBody "Received info command" "info" := rfl

lemma test_eq_body : Api.test = networkedBody "Received test command" "test" := rfl

lemma handlers_split :
    create_api_commands.2.handlers =
      commandListeners ++ [Listener.commandFallback HandlerName.unknown] := rfl

lemma networkedBody_ok (logmsg cmd : String) (a : Api) (w : World) (u : Update)
    (r : Response)
    (hh : w.http ("http://" ++ a.settings.server_address ++ "/v1/" ++ cmd) = Except.ok r)
    (hs : w.send u.message.chat_id (Payload.bytes r.content) = none) :
    networkedBody logmsg cmd a w u =
      (⟨[Effect.logInfo logmsg,
         Effect.httpGet ("http://" ++ a.settings.server_address ++ "/v1/" ++ cmd),
         Effect.sendMessage u.message.chat_id (Payload.bytes r.content)], none⟩, a) := by
  simp [networkedBody, Api.get_request_to_server, hh, hs]

lemma networkedBody_state (logmsg cmd : String) (a : Api) (w : World) (u : Update) :
    (networkedBody logmsg cmd a w u).2 = a := by
  cases hh : w.http ("http://" ++ a.settings.server_address ++ "/v1/" ++ cmd) with
  | error e => simp [networkedBody, Api.get_request_to_server, hh]
  | ok r =>
    cases hs : w.send u.message.chat_id (Payload.bytes r.content) with
    | none => simp [networkedBody, Api.get_request_to_server, hh, hs]
    | some e => simp [networkedBody, Api.get_request_to_server, hh, hs]

lemma networkedBody_one_or_raise (logmsg cmd : String) (a : Api) (w : World) (u : Update) :
    ((networkedBody logmsg cmd a w u).1.raised = none ∧
      ∃ p : Payload,
        sendsOf (networkedBody logmsg cmd a w u).1.trace = [(u.message.chat_id, p)]) ∨
    ((networkedBody logmsg cmd a w u).1.raised ≠ none ∧
      sendsOf (networkedBody logmsg cmd a w u).1.trace = []) := by
  cases hh : w.http ("http://" ++ a.settings.server_address ++ "/v1/" ++ cmd) with
  | error e =>
    right; simp [networkedBody, Api.get_request_to_server, hh, sendsOf]
  | ok r =>
    cases hs : w.send u.message.chat_id (Payload.bytes r.content) with
    | none =>
      left
      refine ⟨?_, Payload.bytes r.content, ?_⟩ <;>
        simp [networkedBody, Api.get_request_to_server, hh, hs, sendsOf]
    | some e =>
      right; simp [networkedBody, Api.get_request_to_server, hh, hs, sendsOf]

/-- Claim C3: for any Settings whose version field equals X, the version
handler sends exactly one reply whose text is X to the originating chat
and issues zero backend HTTP GET requests. -/
theorem C3_version_local_reply (a : Api) (w : World) (u : Update)
    (hs : w.send u.message.chat_id (Payload.str a.settings.version) = none) :
    sendsOf (a.version w u).1.trace =
      [(u.message.chat_id, Payload.str a.settings.version)] ∧
    getsOf (a.version w u).1.trace = [] ∧
    (a.version w u).1.raised = none := by
  simp [Api.version, hs, sendsOf, getsOf]

theorem C3_version_local_reply_witness :
    sendsOf (testApi.version testWorld testUpdate).1.trace =
      [(testUpdate.message.chat_id, Payload.str testApi.settings.version)] ∧
    getsOf (testApi.version testWorld testUpdate).1.trace = [] ∧
    (testApi.version testWorld testUpdate).1.raised = none :=
  C3_version_local_reply testApi testWorld testUpdate rfl

/-- Claim C4: the unknown handler sends exactly one reply whose text is
exactly the string Sorry, unknown command to the originating chat and
issues zero backend HTTP GET requests. -/
theorem C4_unknown_fixed_reply (a : Api) (w : World) (u : Update)
    (hs : w.send u.message.chat_id (Payload.str "Sorry, unknown command") = none) :
    sendsOf (a.unknown w u).1.trace =
      [(u.message.chat_id, Payload.str "Sorry, unknown command")] ∧
    getsOf (a.unknown w u).1.trace = [] ∧
    (a.unknown w u).1.raised = none := by
  simp [Api.unknown, hs, sendsOf, getsOf]

theorem C4_unknown_fixed_reply_witness :
    sendsOf (testApi.unknown testWorld testUpdate).1.trace =
      [(testUpdate.message.chat_id, Payload.str "Sorry, unknown command")] ∧
    getsOf (testApi.unknown testWorld testUpdate).1.trace = [] ∧
    (testApi.unknown testWorld testUpdate).1.raised = none :=
  C4_unknown_fixed_reply testApi testWorld testUpdate rfl

/-- Claim C2 counterexample: an error value that is not a TelegramError
instance, such as a requests connection error raised by a failing backend
GET, is re-raised by the error callback, matches no except clause, and
escapes the callback with nothing logged. -/
theorem C2_nontelegram_escapes :
    (error_callback (PyError.requestsError "ConnectionError")).2 =
      some (PyError.requestsError "ConnectionError") ∧
    (error_callback (PyError.requestsError "ConnectionError")).1 = [] := by
  exact ⟨rfl, rfl⟩

/-- Claim C2 as amended: for every TelegramError value passed to the
error callback, the callback classifies it into exactly one of the six
kinds following the source order of the except clauses, logs that kind
exactly once, sends no reply, and swallows the error; values outside the
TelegramError hierarchy escape instead. -/
theorem C2_telegram_classified (e : PyError) (h : isTelegramError e = true) :
    error_callback e =
      ([Effect.logInfo
        (match e with
         | .unauthorized => "Error Unauthorized found!"
         | .badRequest => "Error BadRequest found!"
         | .timedOut => "Error TimedOut found!"
         | .networkError => "Error NetworkError found!"
         | .chatMigrated _ => "Error ChatMigrated found!"
         | _ => "Error TelegramError found!")], none) := by
  cases e <;> first
    | rfl
    | simp [isTelegramError] at h

theorem C2_telegram_classified_witness :
    error_callback PyError.timedOut =
      ([Effect.logInfo "Error TimedOut found!"], none) :=
  C2_telegram_classified PyError.timedOut rfl

/-- Claim C6: every handler invocation either completes having sent
exactly one reply to the originating chat of the inbound event, or lets
an exception propagate having sent no reply at all; in the networked
handlers a GET failure happens before the send, so a raised exception is
never accompanied by a reply. -/
theorem C6_one_reply_or_raise (h : HandlerName) (a : Api) (w : World) (u : Update) :
    ((runHandler h a w u).1.raised = none ∧
      ∃ p : Payload,
        sendsOf (runHandler h a w u).1.trace = [(u.message.chat_id, p)]) ∨
    ((runHandler h a w u).1.raised ≠ none ∧
      sendsOf (runHandler h a w u).1.trace = []) := by
  cases h with
  | help => exact networkedBody_one_or_raise "Received help command" "help" a w u
  | start => exact networkedBody_one_or_raise "Received start command" "start" a w u
  | stop => exact networkedBody_one_or_raise "Received stop command" "stop" a w u
  | info => exact networkedBody_one_or_raise "Received info command" "info" a w u
  | test => exact networkedBody_one_or_raise "Received test command" "test" a w u
  | version =>
    cases hs : w.send u.message.chat_id (Payload.str a.settings.version) with
    | none =>
      left
      refine ⟨?_, Payload.str a.settings.version, ?_⟩ <;>
        simp [runHandler, Api.version, hs, sendsOf]
    | some e => right; simp [runHandler, Api.version, hs, sendsOf]
  | unknown =>
    cases hs : w.send u.message.chat_id (Payload.str "Sorry, unknown command") with
    | none =>
      left
      refine ⟨?_, Payload.str "Sorry, unknown command", ?_⟩ <;>
        simp [runHandler, Api.unknown, hs, sendsOf]
    | some e => right; simp [runHandler, Api.unknown, hs, sendsOf]

/-- Claim C7: registration installs, in order, one CommandHandler per
name of the fixed command set routing to the identically-named handler
method, then exactly one Filters.command fallback routing to unknown,
and exactly one error handler; each command registration prints the name
being installed, and dispatch routes each fixed command to its handler. -/
theorem C7_registration :
    create_api_commands =
      ([Effect.printLine "Creating command: help",
        Effect.printLine "Creating command: start",
        Effect.printLine "Creating command: stop",
        Effect.printLine "Creating command: info",
        Effect.printLine "Creating command: version",
        Effect.printLine "Creating command: test"],
       { handlers := commandListeners ++ [Listener.commandFallback HandlerName.unknown],
         error_handlers := ["__error_callback"] }) ∧
    (create_api_commands.2.handlers.filter isFallback).length = 1 ∧
    create_api_commands.2.error_handlers.length = 1 ∧
    (api_commands.map fun c => (getattrApi c).map handlerNameStr) =
      (api_commands.map fun c => some c) ∧
    (api_commands.map fun c =>
        dispatch create_api_commands.2.handlers (Inbound.command c 0)) =
      [some HandlerName.help, some HandlerName.start, some HandlerName.stop,
       some HandlerName.info, some HandlerName.version, some HandlerName.test] :=
  ⟨rfl, rfl, rfl, rfl, rfl⟩

/-- Claim C8: no handler invocation mutates the Api object, so the state
after a handler runs equals the state before it ran, and a second
invocation on a fresh inbound event behaves exactly as it would have
without the first. -/
theorem C8_handlers_stateless (h : HandlerName) (a : Api) (w : World) (u1 u2 : Update) :
    (runHandler h a w u1).2 = a ∧
    runHandler h (runHandler h a w u1).2 w u2 = runHandler h a w u2 := by
  have hp : ∀ u : Update, (runHandler h a w u).2 = a := by
    intro u
    cases h with
    | help => exact networkedBody_state "Received help command" "help" a w u
    | start => exact networkedBody_state "Received start command" "start" a w u
    | stop => exact networkedBody_state "Received stop command" "stop" a w u
    | info => exact networkedBody_state "Received info command" "info" a w u
    | test => exact networkedBody_state "Received test command" "test" a w u
    | version =>
      cases hs : w.send u.message.chat_id (Payload.str a.settings.version) with
      | none => simp [runHandler, Api.version, hs]
      | some e => simp [runHandler, Api.version, hs]
    | unknown =>
      cases hs : w.send u.message.chat_id (Payload.str "Sorry, unknown command") with
      | none => simp [runHandler, Api.unknown, hs]
      | some e => simp [runHandler, Api.unknown, hs]
  exact ⟨hp u1, by rw [hp u1]⟩

/-- Claim C10: an inbound message with no command token matches no
registered listener, so no handler runs and no reply is produced; the
unknown handler is reachable only for command-shaped messages. -/
theorem C10_plain_messages_unmatched :
    (∀ chat : Int,
      dispatch create_api_commands.2.handlers (Inbound.plain chat) = none) ∧
    (∀ ev : Inbound,
      dispatch create_api_commands.2.handlers ev = some HandlerName.unknown →
        isCommandMsg ev = true) := by
  constructor
  · intro chat
    rfl
  · intro ev hev
    cases ev with
    | command tok chat => rfl
    | plain chat =>
      rw [show dispatch create_api_commands.2.handlers (Inbound.plain chat) = none
            from rfl] at hev
      exact Option.noConfusion hev

theorem C10_plain_messages_unmatched_witness :
    isCommandMsg (Inbound.command "foo" 1) = true :=
  C10_plain_messages_unmatched.2 (Inbound.command "foo" 1) rfl

/-- Claim C1: each networked command handler (help, start, stop, info,
test) issues exactly one HTTP GET to http://{server_address}/v1/{cmd} and
sends exactly one reply to the originating chat whose text is the raw
response payload of that GET, with no status validation. -/
theorem C1_networked_one_get_one_reply (cmd : String)
    (hmem : cmd ∈ ["help", "start", "stop", "info", "test"])
    (h : HandlerName) (hres : getattrApi cmd = some h)
    (a : Api) (w : World) (u : Update) (r : Response)
    (hh : w.http ("http://" ++ a.settings.server_address ++ "/v1/" ++ cmd) = Except.ok r)
    (hs : w.send u.message.chat_id (Payload.bytes r.content) = none) :
    getsOf (runHandler h a w u).1.trace =
      ["http://" ++ a.settings.server_address ++ "/v1/" ++ cmd] ∧
    sendsOf (runHandler h a w u).1.trace =
      [(u.message.chat_id, Payload.bytes r.content)] ∧
    (runHandler h a w u).1.raised = none := by
  fin_cases hmem
  · rw [show getattrApi "help" = some HandlerName.help from rfl] at hres
    simp only [Option.some.injEq] at hres
    subst hres
    simp only [runHandler]
    rw [help_eq_body, networkedBody_ok _ _ a w u r hh hs]
    exact ⟨rfl, rfl, rfl⟩
  · rw [show getattrApi "start" = some HandlerName.start from rfl] at hres
    simp only [Option.some.injEq] at hres
    subst hres
    simp only [runHandler]
    rw [start_eq_body, networkedBody_ok _ _ a w u r hh hs]
    exact ⟨rfl, rfl, rfl⟩
  · rw [show getattrApi "stop" = some HandlerName.stop from rfl] at hres
    simp only [Option.some.injEq] at hres
    subst hres
    simp only [runHandler]
    rw [stop_eq_body, networkedBody_ok _ _ a w u r hh hs]
    exact ⟨rfl, rfl, rfl⟩
  · rw [show getattrApi "info" = some HandlerName.info from rfl] at hres
    simp only [Option.some.injEq] at hres
    subst hres
    simp only [runHandler]
    rw [info_eq_body, networkedBody_ok _ _ a w u r hh hs]
    exact ⟨rfl, rfl, rfl⟩
  · rw [show getattrApi "test" = some HandlerName.test from rfl] at hres
    simp only [Option.some.injEq] at hres
    subst hres
    simp only [runHandler]
    rw [test_eq_body, networkedBody_ok _ _ a w u r hh hs]
    exact ⟨rfl, rfl, rfl⟩

theorem C1_networked_one_get_one_reply_witness :
    getsOf (runHandler HandlerName.help testApi testWorld testUpdate).1.trace =
      ["http://" ++ testApi.settings.server_address ++ "/v1/" ++ "help"] ∧
    sendsOf (runHandler HandlerName.help testApi testWorld testUpdate).1.trace =
      [(testUpdate.message.chat_id, Payload.bytes testResponse.content)] ∧
    (runHandler HandlerName.help testApi testWorld testUpdate).1.raised = none :=
  C1_networked_one_get_one_reply "help" (by decide) HandlerName.help rfl
    testApi testWorld testUpdate testResponse rfl rfl

/-- Claim C9: for every networked handler, the reply payload handed to
send_message is the undecoded byte content of the HTTP response body
(response.content), passed through verbatim with no character decoding,
no length limit and no escaping. -/
theorem C9_reply_payload_raw_content (cmd : String)
    (hmem : cmd ∈ ["help", "start", "stop", "info", "test"])
    (h : HandlerName) (hres : getattrApi cmd = some h)
    (a : Api) (w : World) (u : Update) (r : Response)
    (hh : w.http ("http://" ++ a.settings.server_address ++ "/v1/" ++ cmd) = Except.ok r)
    (hs : w.send u.message.chat_id (Payload.bytes r.content) = none) :
    (sendsOf (runHandler h a w u).1.trace).map Prod.snd =
      [Payload.bytes r.content] := by
  fin_cases hmem
  · rw [show getattrApi "help" = some HandlerName.help from rfl] at hres
    simp only [Option.some.injEq] at hres
    subst hres
    simp only [runHandler]
    rw [help_eq_body, networkedBody_ok _ _ a w u r hh hs]
    rfl
  · rw [show getattrApi "start" = some HandlerName.start from rfl] at hres
    simp only [Option.some.injEq] at hres
    subst hres
    simp only [runHandler]
    rw [start_eq_body, networkedBody_ok _ _ a w u r hh hs]
    rfl
  · rw [show getattrApi "stop" = some HandlerName.stop from rfl] at hres
    simp only [Option.some.injEq] at hres
    subst hres
    simp only [runHandler]
    rw [stop_eq_body, networkedBody_ok _ _ a w u r hh hs]
    rfl
  · rw [show getattrApi "info" = some HandlerName.info from rfl] at hres
    simp only [Option.some.injEq] at hres
    subst hres
    simp only [runHandler]
    rw [info_eq_body, networkedBody_ok _ _ a w u r hh hs]
    rfl
  · rw [show getattrApi "test" = some HandlerName.test from rfl] at hres
    simp only [Option.some.injEq] at hres
    subst hres
    simp only [runHandler]
    rw [test_eq_body, networkedBody_ok _ _ a w u r hh hs]
    rfl

theorem C9_reply_payload_raw_content_witness :
    (sendsOf (runHandler HandlerName.test testApi testWorld testUpdate).1.trace).map
        Prod.snd =
      [Payload.bytes testResponse.content] :=
  C9_reply_payload_raw_content "test" (by decide) HandlerName.test rfl
    testApi testWorld testUpdate testResponse rfl rfl

lemma find_unique_match {α : Type} (p : α → Bool) (a : α) :
    ∀ L : List α, a ∈ L → p a = true → (∀ b ∈ L, p b = true → b = a) →
      L.find? p = some a := by
  intro L
  induction L with
  | nil =>
    intro hmem _ _
    exact absurd hmem (List.not_mem_nil a)
  | cons x xs ih =>
    intro hmem hpa huniq
    by_cases hx : p x = true
    · have hxa : x = a := huniq x (List.mem_cons_self x xs) hx
      rw [List.find?_cons_of_pos _ hx, hxa]
    · have hax : a ∈ xs := by
        rcases List.mem_cons.mp hmem with h1 | h1
        · exact absurd (h1 ▸ hpa) hx
        · exact h1
      rw [List.find?_cons_of_neg _ (by simpa using hx)]
      exact ih hax hpa fun b hb hpb => huniq b (List.mem_cons_of_mem x hb) hpb

lemma perm_dispatch_token (L : List Listener) (hperm : L.Perm commandListeners)
    (tok : String) (hn : HandlerName) (chat : Int)
    (hmem6 : Listener.cmdListener tok hn ∈ commandListeners)
    (huniqC : ∀ b ∈ commandListeners,
      listenerMatches b (Inbound.command tok chat) = true →
        b = Listener.cmdListener tok hn) :
    ((L ++ [Listener.commandFallback HandlerName.unknown]).find? fun l =>
        listenerMatches l (Inbound.command tok chat)) =
      ((commandListeners ++ [Listener.commandFallback HandlerName.unknown]).find? fun l =>
        listenerMatches l (Inbound.command tok chat)) := by
  have hpa : listenerMatches (Listener.cmdListener tok hn)
      (Inbound.command tok chat) = true := by
    simp [listenerMatches]
  have h1 := find_unique_match (fun l => listenerMatches l (Inbound.command tok chat))
    (Listener.cmdListener tok hn) L (hperm.mem_iff.mpr hmem6) hpa
    (fun b hb => huniqC b (hperm.subset hb))
  have h2 := find_unique_match (fun l => listenerMatches l (Inbound.command tok chat))
    (Listener.cmdListener tok hn) commandListeners hmem6 hpa huniqC
  simp only [List.find?_append]
  rw [h1, h2]

/-- Claim C5 counterexample: moving the Filters.command fallback listener
ahead of the CommandHandler listeners is a permutation of the registered
listener list under which dispatch of the command help routes to the
unknown handler instead of the help handler, so registration order does
affect the dispatch outcome. -/
theorem C5_fallback_first_changes_dispatch :
    fallbackFirstOrder.Perm create_api_commands.2.handlers ∧
    dispatch fallbackFirstOrder (Inbound.command "help" 0) =
      some HandlerName.unknown ∧
    dispatch create_api_commands.2.handlers (Inbound.command "help" 0) =
      some HandlerName.help ∧
    dispatch fallbackFirstOrder (Inbound.command "help" 0) ≠
      dispatch create_api_commands.2.handlers (Inbound.command "help" 0) := by
  refine ⟨?_, rfl, rfl, by decide⟩
  rw [handlers_split]
  exact (List.perm_append_singleton _ _).symm

/-- Claim C5 as amended: permuting the six CommandHandler listeners among
themselves, with the Filters.command fallback staying after all of them,
leaves the dispatch outcome of every inbound event equal to that of the
order used by the code; the fault listener lives in the separate error
handler registry and takes no part in dispatch. Moving the fallback ahead
of a CommandHandler changes the outcome, as the counterexample shows. -/
theorem C5_perm_preserves_dispatch (L : List Listener)
    (hperm : L.Perm commandListeners) (ev : Inbound) :
    dispatch (L ++ [Listener.commandFallback HandlerName.unknown]) ev =
      dispatch create_api_commands.2.handlers ev := by
  rw [handlers_split]
  cases ev with
  | plain chat =>
    have hnone : ∀ ls : List Listener,
        (ls.find? fun l => listenerMatches l (Inbound.plain chat)) = none :=
      fun ls => List.find?_eq_none.mpr fun x _ => by
        cases x <;> simp [listenerMatches]
    simp only [dispatch]
    rw [hnone, hnone]
  | command tok chat =>
    simp only [dispatch]
    by_cases h1 : tok = "help"
    · subst h1
      refine congrArg (Option.map listenerHandler)
        (perm_dispatch_token L hperm "help" HandlerName.help chat
          (by simp [commandListeners]) ?_)
      intro b hb hpb
      simp [commandListeners] at hb
      rcases hb with rfl | rfl | rfl | rfl | rfl | rfl <;>
        first
          | rfl
          | (simp only [listenerMatches] at hpb; exact absurd hpb (by decide))
    by_cases h2 : tok = "start"
    · subst h2
      refine congrArg (Option.map listenerHandler)
        (perm_dispatch_token L hperm "start" HandlerName.start chat
          (by simp [commandListeners]) ?_)
      intro b hb hpb
      simp [commandListeners] at hb
      rcases hb with rfl | rfl | rfl | rfl | rfl | rfl <;>
        first
          | rfl
          | (simp only [listenerMatches] at hpb; exact absurd hpb (by decide))
    by_cases h3 : tok = "stop"
    · subst h3
      refine congrArg (Option.map listenerHandler)
        (perm_dispatch_token L hperm "stop" HandlerName.stop chat
          (by simp [commandListeners]) ?_)
      intro b hb hpb
      simp [commandListeners] at hb
      rcases hb with rfl | rfl | rfl | rfl | rfl | rfl <;>
        first
          | rfl
          | (simp only [listenerMatches] at hpb; exact absurd hpb (by decide))
    by_cases h4 : tok = "info"
    · subst h4
      refine congrArg (Option.map listenerHandler)
        (perm_dispatch_token L hperm "info" HandlerName.info chat
          (by simp [commandListeners]) ?_)
      intro b hb hpb
      simp [commandListeners] at hb
      rcases hb with rfl | rfl | rfl | rfl | rfl | rfl <;>
        first
          | rfl
          | (simp only [listenerMatches] at hpb; exact absurd hpb (by decide))
    by_cases h5 : tok = "version"
    · subst h5
      refine congrArg (Option.map listenerHandler)
        (perm_dispatch_token L hperm "version" HandlerName.version chat
          (by simp [commandListeners]) ?_)
      intro b hb hpb
      simp [commandListeners] at hb
      rcases hb with rfl | rfl | rfl | rfl | rfl | rfl <;>
        first
          | rfl
          | (simp only [listenerMatches] at hpb; exact absurd hpb (by decide))
    by_cases h6 : tok = "test"
    · subst h6
      refine congrArg (Option.map listenerHandler)
        (perm_dispatch_token L hperm "test" HandlerName.test chat
          (by simp [commandListeners]) ?_)
      intro b hb hpb
      simp [commandListeners] at hb
      rcases hb with rfl | rfl | rfl | rfl | rfl | rfl <;>
        first
          | rfl
          | (simp only [listenerMatches] at hpb; exact absurd hpb (by decide))
    have key : ∀ b ∈ commandListeners,
        ¬listenerMatches b (Inbound.command tok chat) = true := by
      intro b hb
      simp [commandListeners] at hb
      rcases hb with rfl | rfl | rfl | rfl | rfl | rfl <;>
        simp only [listenerMatches, beq_iff_eq] <;> assumption
    have hnoneL : (L.find? fun l => listenerMatches l (Inbound.command tok chat)) = none :=
      List.find?_eq_none.mpr fun b hb => key b (hperm.subset hb)
    have hnoneR :
        (commandListeners.find? fun l => listenerMatches l (Inbound.command tok chat)) = none :=
      List.find?_eq_none.mpr key
    simp only [List.find?_append]
    rw [hnoneL, hnoneR]

theorem C5_perm_preserves_dispatch_witness :
    dispatch (commandListeners ++ [Listener.commandFallback HandlerName.unknown])
        (Inbound.command "help" 0) =
      dispatch create_api_commands.2.handlers (Inbound.command "help" 0) :=
  C5_perm_preserves_dispatch commandListeners (List.Perm.refl commandListeners)
    (Inbound.command "help" 0)

end MotionBot
